import Mathlib

/-!
Shallow embedding of the RX65N virtual-microcontroller core
(rx_emulator: memory.py, interrupt.py, cpu.py, timer.py, clock.py,
emulator.py) and proofs about the claims on its specification.

Conventions of the embedding:
* Python integers are modelled as Nat; the places where the source
  masks with a power-of-two mask are embedded with the same mask
  (x &&& 0xFFFFFFFF and friends).  The one genuinely signed operation,
  (a - b) & 0xFFFFFFFF on a possibly negative difference, goes through
  Int and is wrapped by sub32 below.
* Mutation becomes explicit state passing: every method that mutates
  an object returns the updated object.
* A Python exception (RuntimeError of an undefined instruction) is
  modelled by a raised-flag returned next to the state: the state at
  the moment of the raise is kept, as the Python objects survive the
  exception partially mutated.
* Peripheral read/write callbacks registered in the memory controller
  live outside the memory state (they mutate other components).  The
  controller only needs which addresses are handled and what a read
  at a handled address returns, so the handler table is modelled by a
  presence predicate (handlers) together with an abstract read view
  (hread); a handled write leaves the block store untouched, exactly
  as MemoryController.write8 returns before reaching the blocks.
  All registrations in the repository install both callbacks.
-/

/-- Memory region kinds, from memory.py MemoryRegion. -/
inductive MemoryRegion where
  | RAM
  | FLASH
  | PERIPHERAL
  | RESERVED
deriving DecidableEq, Repr

/-- Memory block, from memory.py MemoryBlock: a named range backed by a
byte buffer, possibly read-only.  The byte buffer bytearray(size) is a
list of byte values. -/
structure MemoryBlock where
  name : String
  start : Nat
  size : Nat
  region_type : MemoryRegion
  data : List Nat
  readonly : Bool
deriving DecidableEq, Repr

/-- Last address of a block, from memory.py MemoryBlock.end
(start + size - 1).  Named bend because end is a keyword. -/
def MemoryBlock.bend (b : MemoryBlock) : Nat := b.start + b.size - 1

/-- Membership test of memory.py MemoryBlock.contains:
start <= address <= end. -/
def MemoryBlock.containsB (b : MemoryBlock) (addr : Nat) : Bool :=
  decide (b.start ≤ addr) && decide (addr ≤ b.bend)

/-- State of memory.py MemoryController: the block list plus the
peripheral handler table (see the header comment for how callbacks are
abstracted).  Access logs and write callbacks are observational only and
omitted. -/
structure MemoryController where
  blocks : List MemoryBlock
  handlers : Nat → Bool
  hread : Nat → Nat

/-- Lookup of memory.py MemoryController._find_block: first block of the
list containing the address. -/
def findBlock (blocks : List MemoryBlock) (addr : Nat) : Option MemoryBlock :=
  blocks.find? (fun b => b.containsB addr)

/-- Block-store part of memory.py MemoryController.read8: find the
covering block and read its byte, 0xFF when unmapped.  Python indexing
block.data[offset] assumes offset < len(data); getD totalizes the
out-of-range case (unreachable for well-formed blocks) with 0. -/
def readBlocks (blocks : List MemoryBlock) (addr : Nat) : Nat :=
  match findBlock blocks addr with
  | none => 0xFF
  | some b => b.data.getD (addr - b.start) 0

/-- Block-store part of memory.py MemoryController.write8: the first
block containing the address is mutated at offset addr - start unless it
is read-only; an unmapped write is discarded. -/
def writeBlocks : List MemoryBlock → Nat → Nat → List MemoryBlock
  | [], _, _ => []
  | b :: rest, addr, v =>
    if b.containsB addr then
      if b.readonly then b :: rest
      else { b with data := b.data.set (addr - b.start) v } :: rest
    else b :: writeBlocks rest addr v

/-- memory.py MemoryController.read8: mask the address to 32 bits, serve
a registered peripheral handler first, otherwise read the block store. -/
def MemoryController.read8 (m : MemoryController) (addr : Nat) : Nat :=
  let addr := addr &&& 0xFFFFFFFF
  if m.handlers addr then m.hread addr &&& 0xFF
  else readBlocks m.blocks addr

/-- memory.py MemoryController.read16 (little-endian byte composition). -/
def MemoryController.read16 (m : MemoryController) (addr : Nat) : Nat :=
  let low := m.read8 addr
  let high := m.read8 (addr + 1)
  (high <<< 8) ||| low

/-- memory.py MemoryController.read32 (little-endian byte composition). -/
def MemoryController.read32 (m : MemoryController) (addr : Nat) : Nat :=
  let b0 := m.read8 addr
  let b1 := m.read8 (addr + 1)
  let b2 := m.read8 (addr + 2)
  let b3 := m.read8 (addr + 3)
  (b3 <<< 24) ||| (b2 <<< 16) ||| (b1 <<< 8) ||| b0

/-- memory.py MemoryController.write8: mask address and value, a handled
address is served by its peripheral callback (outside this state),
otherwise the block store is updated. -/
def MemoryController.write8 (m : MemoryController) (addr v : Nat) : MemoryController :=
  let addr := addr &&& 0xFFFFFFFF
  let v := v &&& 0xFF
  if m.handlers addr then m
  else { m with blocks := writeBlocks m.blocks addr v }

/-- memory.py MemoryController.write16 (little-endian decomposition). -/
def MemoryController.write16 (m : MemoryController) (addr v : Nat) : MemoryController :=
  let m := m.write8 addr (v &&& 0xFF)
  m.write8 (addr + 1) ((v >>> 8) &&& 0xFF)

/-- memory.py MemoryController.write32 (little-endian decomposition). -/
def MemoryController.write32 (m : MemoryController) (addr v : Nat) : MemoryController :=
  let m := m.write8 addr (v &&& 0xFF)
  let m := m.write8 (addr + 1) ((v >>> 8) &&& 0xFF)
  let m := m.write8 (addr + 2) ((v >>> 16) &&& 0xFF)
  m.write8 (addr + 3) ((v >>> 24) &&& 0xFF)

/-- memory.py MemoryController.reset: every RAM block gets a fresh
zeroed buffer bytearray(size); all other blocks and the peripheral
handler table are untouched. -/
def MemoryController.reset (m : MemoryController) : MemoryController :=
  { m with blocks := m.blocks.map (fun b =>
      if b.region_type = MemoryRegion.RAM then
        { b with data := List.replicate b.size 0 }
      else b) }

/-- Interrupt kinds, from interrupt.py InterruptType. -/
inductive InterruptType where
  | RESET
  | UNDEFINED_INSTRUCTION
  | FLOATING_POINT
  | SOFTWARE_INTERRUPT
  | NMI
  | PERIPHERAL
deriving DecidableEq, Repr

/-- Interrupt source, from interrupt.py InterruptSource. -/
structure InterruptSource where
  vector : Nat
  name : String
  priority : Nat := 0
  enabled : Bool := false
  pending : Bool := false
  interrupt_type : InterruptType := InterruptType.PERIPHERAL
deriving DecidableEq, Repr

/-- State of interrupt.py InterruptController.  The sources dict is an
insertion-ordered map from vector to source, modelled as a list with
unique vector fields in insertion order.  The interrupt log and the
callback list are observational only and omitted. -/
structure InterruptController where
  sources : List InterruptSource
  pending_queue : List Nat
  nest_stack : List Nat
deriving DecidableEq, Repr

/-- interrupt.py InterruptController.get_pending_interrupt: scan the
sources in insertion order keeping the strictly highest priority among
pending-and-enabled ones (initial best priority is -1), and return the
winning VECTOR (not its priority). -/
def InterruptController.get_pending_interrupt (ic : InterruptController) : Option Nat :=
  (ic.sources.foldl
    (fun (acc : Int × Option Nat) s =>
      if s.pending && s.enabled && decide ((s.priority : Int) > acc.1) then
        ((s.priority : Int), some s.vector)
      else acc)
    ((-1 : Int), (none : Option Nat))).2

/-- interrupt.py InterruptController.acknowledge: clear the pending flag
of the acknowledged vector's source and push the vector on the nest
stack; an unknown vector is ignored. -/
def InterruptController.acknowledge (ic : InterruptController) (vector : Nat) : InterruptController :=
  if ic.sources.any (fun s => s.vector == vector) then
    { ic with
        sources := ic.sources.map (fun s =>
          if s.vector == vector then { s with pending := false } else s),
        nest_stack := ic.nest_stack ++ [vector] }
  else ic

/-- interrupt.py InterruptController.request: materialize an unknown
vector as a fresh disabled source (name INT<v>, modelled by a constant
name), then, only if the source is enabled, set pending and append the
vector to the request queue. -/
def InterruptController.request (ic : InterruptController) (vector : Nat) : InterruptController :=
  let ic :=
    if ic.sources.any (fun s => s.vector == vector) then ic
    else { ic with sources := ic.sources ++ [{ vector := vector, name := "INT" }] }
  if ((ic.sources.find? (fun s => s.vector == vector)).map (fun s => s.enabled)).getD false then
    { ic with
        sources := ic.sources.map (fun s =>
          if s.vector == vector then { s with pending := true } else s),
        pending_queue := ic.pending_queue ++ [vector] }
  else ic

/-- interrupt.py InterruptController.reset: every source becomes
disabled, not pending, priority 0; the queues are cleared. -/
def InterruptController.reset (ic : InterruptController) : InterruptController :=
  { ic with
      sources := ic.sources.map (fun s =>
        { s with enabled := false, pending := false, priority := 0 }),
      pending_queue := [],
      nest_stack := [] }

/-- PSW flag bit masks, from cpu.py PSWFlags. -/
def PSWFlags.C : Nat := 0x00000001

/-- PSW zero flag mask, from cpu.py PSWFlags. -/
def PSWFlags.Z : Nat := 0x00000002

/-- PSW sign flag mask, from cpu.py PSWFlags. -/
def PSWFlags.S : Nat := 0x00000004

/-- PSW overflow flag mask, from cpu.py PSWFlags. -/
def PSWFlags.O : Nat := 0x00000008

/-- PSW interrupt-enable flag mask, from cpu.py PSWFlags. -/
def PSWFlags.I : Nat := 0x00010000

/-- PSW user-mode flag mask, from cpu.py PSWFlags. -/
def PSWFlags.U : Nat := 0x00020000

/-- PSW processor-mode flag mask, from cpu.py PSWFlags. -/
def PSWFlags.PM : Nat := 0x00100000

/-- IPL field mask (bits 24..27), from cpu.py PSWFlags. -/
def PSWFlags.IPL_MASK : Nat := 0x0F000000

/-- Clearing bits of a mask, Python x & ~mask on a nonnegative int:
each bit of x that also lies in mask is removed. -/
def clearBits (x mask : Nat) : Nat := x - (x &&& mask)

/-- Python (a - b) & 0xFFFFFFFF where a - b may be negative: two's
complement wrap of the integer difference. -/
def sub32 (a b : Nat) : Nat := (((a : Int) - (b : Int)) % (4294967296 : Int)).toNat

/-- CPU state enumeration, from cpu.py CPUState. -/
inductive CPUState where
  | STOPPED
  | RUNNING
  | HALTED
  | WAITING
  | EXCEPTION
deriving DecidableEq, Repr

/-- Register set, from cpu.py CPURegisters: sixteen general registers
(r[0] doubles as SP), PC, PSW and the reserved shadow registers. -/
structure CPURegisters where
  r : List Nat
  pc : Nat
  psw : Nat
  isp : Nat
  usp : Nat
  fpsw : Nat
  acc : Nat
deriving DecidableEq, Repr

/-- Field defaults of cpu.py CPURegisters: all registers and counters 0,
PSW with only the interrupt-enable bit set. -/
def CPURegisters.init : CPURegisters :=
  { r := List.replicate 16 0, pc := 0, psw := PSWFlags.I,
    isp := 0, usp := 0, fpsw := 0, acc := 0 }

/-- General register read r[i] (Python list indexing, i < 16 always). -/
def CPURegisters.getR (regs : CPURegisters) (i : Nat) : Nat := regs.r.getD i 0

/-- General register write r[i] = v (no masking: assignments in the
source store the value as computed). -/
def CPURegisters.setR (regs : CPURegisters) (i v : Nat) : CPURegisters :=
  { regs with r := regs.r.set i v }

/-- cpu.py CPURegisters.sp getter: alias of r[0]. -/
def CPURegisters.sp (regs : CPURegisters) : Nat := regs.getR 0

/-- cpu.py CPURegisters.sp setter: r[0] = value & 0xFFFFFFFF. -/
def CPURegisters.setSp (regs : CPURegisters) (v : Nat) : CPURegisters :=
  regs.setR 0 (v &&& 0xFFFFFFFF)

/-- cpu.py CPURegisters.ipl getter: (psw >> 24) & 0x0F. -/
def CPURegisters.ipl (regs : CPURegisters) : Nat := (regs.psw >>> 24) &&& 0x0F

/-- cpu.py CPURegisters.ipl setter:
psw = (psw & ~IPL_MASK) | ((value & 0x0F) << 24). -/
def CPURegisters.setIpl (regs : CPURegisters) (v : Nat) : CPURegisters :=
  { regs with psw := clearBits regs.psw PSWFlags.IPL_MASK ||| ((v &&& 0x0F) <<< 24) }

/-- cpu.py CPURegisters.get_flag: bool(psw & flag). -/
def CPURegisters.get_flag (regs : CPURegisters) (flag : Nat) : Bool :=
  regs.psw &&& flag != 0

/-- cpu.py CPURegisters.set_flag: psw |= flag or psw &= ~flag. -/
def CPURegisters.set_flag (regs : CPURegisters) (flag : Nat) (value : Bool) : CPURegisters :=
  if value then { regs with psw := regs.psw ||| flag }
  else { regs with psw := clearBits regs.psw flag }

/-- cpu.py CPURegisters.update_flags_arithmetic: Z and S from the
result, C as unsigned overflow (op1 < op2 for subtraction, result > mask
for addition -- note every caller passes an already masked result), O as
signed overflow from the operand and result sign bits. -/
def CPURegisters.update_flags_arithmetic (regs : CPURegisters)
    (result op1 op2 : Nat) (is_subtraction : Bool) (bits : Nat) : CPURegisters :=
  let mask := (1 <<< bits) - 1
  let sign_bit := 1 <<< (bits - 1)
  let regs := regs.set_flag PSWFlags.Z (result &&& mask == 0)
  let regs := regs.set_flag PSWFlags.S (result &&& sign_bit != 0)
  let regs := regs.set_flag PSWFlags.C
    (if is_subtraction then decide (op1 < op2) else decide (result > mask))
  let op1_sign := op1 &&& sign_bit != 0
  let op2_sign := op2 &&& sign_bit != 0
  let result_sign := result &&& sign_bit != 0
  let overflow :=
    if is_subtraction then op1_sign != op2_sign && result_sign != op1_sign
    else op1_sign == op2_sign && result_sign != op1_sign
  regs.set_flag PSWFlags.O overflow

/-- cpu.py CPURegisters.update_flags_logical: Z and S only. -/
def CPURegisters.update_flags_logical (regs : CPURegisters)
    (result : Nat) (bits : Nat) : CPURegisters :=
  let mask := (1 <<< bits) - 1
  let sign_bit := 1 <<< (bits - 1)
  let regs := regs.set_flag PSWFlags.Z (result &&& mask == 0)
  regs.set_flag PSWFlags.S (result &&& sign_bit != 0)

/-- Machine state of cpu.py RXCpu together with its connected memory
controller and (optional) interrupt controller.  Trace callbacks are
observational only and omitted; memory is always connected (step raises
otherwise, a case the claims never reach). -/
structure RXCpu where
  regs : CPURegisters
  state : CPUState
  mem : MemoryController
  ic : Option InterruptController
  cycle_count : Nat
  instruction_count : Nat
  breakpoints : List Nat

/-- cpu.py RXCpu._fetch: one byte at PC, PC advances by 1 (masked),
cycle counter by 1. -/
def RXCpu.fetch (c : RXCpu) : Nat × RXCpu :=
  (c.mem.read8 c.regs.pc,
   { c with regs := { c.regs with pc := (c.regs.pc + 1) &&& 0xFFFFFFFF },
            cycle_count := c.cycle_count + 1 })

/-- cpu.py RXCpu._fetch16: two bytes at PC, PC + 2, cycles + 2. -/
def RXCpu.fetch16 (c : RXCpu) : Nat × RXCpu :=
  (c.mem.read16 c.regs.pc,
   { c with regs := { c.regs with pc := (c.regs.pc + 2) &&& 0xFFFFFFFF },
            cycle_count := c.cycle_count + 2 })

/-- cpu.py RXCpu._fetch32: four bytes at PC, PC + 4, cycles + 4. -/
def RXCpu.fetch32 (c : RXCpu) : Nat × RXCpu :=
  (c.mem.read32 c.regs.pc,
   { c with regs := { c.regs with pc := (c.regs.pc + 4) &&& 0xFFFFFFFF },
            cycle_count := c.cycle_count + 4 })

/-- cpu.py RXCpu._undefined_instruction: the state becomes EXCEPTION and
a RuntimeError is raised (second component true = raised). -/
def RXCpu.undefined_instruction (c : RXCpu) : RXCpu × Bool :=
  ({ c with state := CPUState.EXCEPTION }, true)

/-- cpu.py RXCpu._op_nop. -/
def RXCpu.op_nop (c : RXCpu) : RXCpu × Bool := (c, false)

/-- cpu.py RXCpu._op_mov_imm32: MOV.L #imm32, Rd. -/
def RXCpu.op_mov_imm32 (c : RXCpu) : RXCpu × Bool :=
  let (second, c) := c.fetch
  let rd := second &&& 0x0F
  let (imm32, c) := c.fetch32
  ({ c with regs := c.regs.setR rd imm32 }, false)

/-- cpu.py RXCpu._op_mov_reg: MOV.L Rs, Rd (register to register). -/
def RXCpu.op_mov_reg (c : RXCpu) : RXCpu × Bool :=
  let (second, c) := c.fetch
  let rs := (second >>> 4) &&& 0x0F
  let rd := second &&& 0x0F
  ({ c with regs := c.regs.setR rd (c.regs.getR rs) }, false)

/-- cpu.py RXCpu._op_add_imm4: ADD #imm4, Rd with sign extension of the
4-bit immediate (imm4 |= 0xFFFFFFF0 when bit 3 is set). -/
def RXCpu.op_add_imm4 (c : RXCpu) : RXCpu × Bool :=
  let (second, c) := c.fetch
  let imm4 := (second >>> 4) &&& 0x0F
  let rd := second &&& 0x0F
  let imm4 := if imm4 &&& 0x08 != 0 then imm4 ||| 0xFFFFFFF0 else imm4
  let op1 := c.regs.getR rd
  let result := (op1 + imm4) &&& 0xFFFFFFFF
  let regs := c.regs.update_flags_arithmetic result op1 (imm4 &&& 0xFFFFFFFF) false 32
  ({ c with regs := regs.setR rd result }, false)

/-- cpu.py RXCpu._op_add_reg: ADD Rs, Rd.  Note the flag update receives
the already masked result. -/
def RXCpu.op_add_reg (c : RXCpu) : RXCpu × Bool :=
  let (second, c) := c.fetch
  let rs := (second >>> 4) &&& 0x0F
  let rd := second &&& 0x0F
  let op1 := c.regs.getR rd
  let op2 := c.regs.getR rs
  let result := (op1 + op2) &&& 0xFFFFFFFF
  let regs := c.regs.update_flags_arithmetic result op1 op2 false 32
  ({ c with regs := regs.setR rd result }, false)

/-- cpu.py RXCpu._op_sub_reg: SUB Rs, Rd. -/
def RXCpu.op_sub_reg (c : RXCpu) : RXCpu × Bool :=
  let (second, c) := c.fetch
  let rs := (second >>> 4) &&& 0x0F
  let rd := second &&& 0x0F
  let op1 := c.regs.getR rd
  let op2 := c.regs.getR rs
  let result := sub32 op1 op2
  let regs := c.regs.update_flags_arithmetic result op1 op2 true 32
  ({ c with regs := regs.setR rd result }, false)

/-- cpu.py RXCpu._op_cmp_imm4: CMP #imm4, Rd (flags only). -/
def RXCpu.op_cmp_imm4 (c : RXCpu) : RXCpu × Bool :=
  let (second, c) := c.fetch
  let imm4 := (second >>> 4) &&& 0x0F
  let rd := second &&& 0x0F
  let imm4 := if imm4 &&& 0x08 != 0 then imm4 ||| 0xFFFFFFF0 else imm4
  let op1 := c.regs.getR rd
  let result := sub32 op1 (imm4 &&& 0xFFFFFFFF)
  ({ c with regs := c.regs.update_flags_arithmetic result op1 (imm4 &&& 0xFFFFFFFF) true 32 }, false)

/-- cpu.py RXCpu._op_and_reg: AND Rs, Rd. -/
def RXCpu.op_and_reg (c : RXCpu) : RXCpu × Bool :=
  let (second, c) := c.fetch
  let rs := (second >>> 4) &&& 0x0F
  let rd := second &&& 0x0F
  let result := c.regs.getR rd &&& c.regs.getR rs
  let regs := c.regs.update_flags_logical result 32
  ({ c with regs := regs.setR rd result }, false)

/-- cpu.py RXCpu._op_or_reg: OR Rs, Rd. -/
def RXCpu.op_or_reg (c : RXCpu) : RXCpu × Bool :=
  let (second, c) := c.fetch
  let rs := (second >>> 4) &&& 0x0F
  let rd := second &&& 0x0F
  let result := c.regs.getR rd ||| c.regs.getR rs
  let regs := c.regs.update_flags_logical result 32
  ({ c with regs := regs.setR rd result }, false)

/-- cpu.py RXCpu._op_xor_reg: XOR Rs, Rd. -/
def RXCpu.op_xor_reg (c : RXCpu) : RXCpu × Bool :=
  let (second, c) := c.fetch
  let rs := (second >>> 4) &&& 0x0F
  let rd := second &&& 0x0F
  let result := c.regs.getR rd ^^^ c.regs.getR rs
  let regs := c.regs.update_flags_logical result 32
  ({ c with regs := regs.setR rd result }, false)

/-- cpu.py RXCpu._op_push: PUSH.L Rs. -/
def RXCpu.op_push (c : RXCpu) : RXCpu × Bool :=
  let (second, c) := c.fetch
  let rs := second &&& 0x0F
  let regs := c.regs.setSp (sub32 c.regs.sp 4)
  let mem := c.mem.write32 regs.sp (regs.getR rs)
  ({ c with regs := regs, mem := mem }, false)

/-- cpu.py RXCpu._op_pop: POP Rd. -/
def RXCpu.op_pop (c : RXCpu) : RXCpu × Bool :=
  let (second, c) := c.fetch
  let rd := second &&& 0x0F
  let regs := c.regs.setR rd (c.mem.read32 c.regs.sp)
  let regs := regs.setSp (regs.sp + 4)
  ({ c with regs := regs }, false)

/-- cpu.py RXCpu._op_bsr_w: BSR.W disp16 (sign-extended displacement,
return address pushed). -/
def RXCpu.op_bsr_w (c : RXCpu) : RXCpu × Bool :=
  let (disp16, c) := c.fetch16
  let disp16 := if disp16 &&& 0x8000 != 0 then disp16 ||| 0xFFFF0000 else disp16
  let regs := c.regs.setSp (sub32 c.regs.sp 4)
  let mem := c.mem.write32 regs.sp regs.pc
  let regs := { regs with pc := (regs.pc + disp16) &&& 0xFFFFFFFF }
  ({ c with regs := regs, mem := mem }, false)

/-- cpu.py RXCpu._op_bra_w: BRA.W disp16. -/
def RXCpu.op_bra_w (c : RXCpu) : RXCpu × Bool :=
  let (disp16, c) := c.fetch16
  let disp16 := if disp16 &&& 0x8000 != 0 then disp16 ||| 0xFFFF0000 else disp16
  ({ c with regs := { c.regs with pc := (c.regs.pc + disp16) &&& 0xFFFFFFFF } }, false)

/-- cpu.py RXCpu._op_beq: BEQ disp8, taken when Z is set. -/
def RXCpu.op_beq (c : RXCpu) : RXCpu × Bool :=
  let (disp8, c) := c.fetch
  if c.regs.get_flag PSWFlags.Z then
    let disp8 := if disp8 &&& 0x80 != 0 then disp8 ||| 0xFFFFFF00 else disp8
    ({ c with regs := { c.regs with pc := (c.regs.pc + disp8) &&& 0xFFFFFFFF } }, false)
  else (c, false)

/-- cpu.py RXCpu._op_bne: BNE disp8, taken when Z is clear. -/
def RXCpu.op_bne (c : RXCpu) : RXCpu × Bool :=
  let (disp8, c) := c.fetch
  if c.regs.get_flag PSWFlags.Z then (c, false)
  else
    let disp8 := if disp8 &&& 0x80 != 0 then disp8 ||| 0xFFFFFF00 else disp8
    ({ c with regs := { c.regs with pc := (c.regs.pc + disp8) &&& 0xFFFFFFFF } }, false)

/-- cpu.py RXCpu._op_rts. -/
def RXCpu.op_rts (c : RXCpu) : RXCpu × Bool :=
  let regs := { c.regs with pc := c.mem.read32 c.regs.sp }
  let regs := regs.setSp (regs.sp + 4)
  ({ c with regs := regs }, false)

/-- cpu.py RXCpu._op_mov_b_store: MOV.B Rs, [Rd]. -/
def RXCpu.op_mov_b_store (c : RXCpu) : RXCpu × Bool :=
  let (second, c) := c.fetch
  let rs := (second >>> 4) &&& 0x0F
  let rd := second &&& 0x0F
  ({ c with mem := c.mem.write8 (c.regs.getR rd) (c.regs.getR rs &&& 0xFF) }, false)

/-- cpu.py RXCpu._op_mov_b_load: MOV.B [Rs], Rd. -/
def RXCpu.op_mov_b_load (c : RXCpu) : RXCpu × Bool :=
  let (second, c) := c.fetch
  let rs := (second >>> 4) &&& 0x0F
  let rd := second &&& 0x0F
  ({ c with regs := c.regs.setR rd (c.mem.read8 (c.regs.getR rs)) }, false)

/-- cpu.py RXCpu._op_mov_l_store: MOV.L Rs, [Rd]. -/
def RXCpu.op_mov_l_store (c : RXCpu) : RXCpu × Bool :=
  let (second, c) := c.fetch
  let rs := (second >>> 4) &&& 0x0F
  let rd := second &&& 0x0F
  ({ c with mem := c.mem.write32 (c.regs.getR rd) (c.regs.getR rs) }, false)

/-- cpu.py RXCpu._op_mov_l_load: MOV.L [Rs], Rd (memory load). -/
def RXCpu.op_mov_l_load (c : RXCpu) : RXCpu × Bool :=
  let (second, c) := c.fetch
  let rs := (second >>> 4) &&& 0x0F
  let rd := second &&& 0x0F
  ({ c with regs := c.regs.setR rd (c.mem.read32 (c.regs.getR rs)) }, false)

/-- cpu.py RXCpu._op_fd_prefix (renamed, the word prefix is avoided):
SETPSW / CLRPSW on the flag selected by the third byte, otherwise an
undefined instruction. -/
def RXCpu.op_fd_ext (c : RXCpu) : RXCpu × Bool :=
  let (second, c) := c.fetch
  if second = 0x72 then
    let (third, c) := c.fetch
    let flag_bit := third &&& 0x0F
    let regs :=
      if flag_bit = 0 then c.regs.set_flag PSWFlags.C true
      else if flag_bit = 1 then c.regs.set_flag PSWFlags.Z true
      else if flag_bit = 2 then c.regs.set_flag PSWFlags.S true
      else if flag_bit = 3 then c.regs.set_flag PSWFlags.O true
      else if flag_bit = 8 then c.regs.set_flag PSWFlags.I true
      else c.regs
    ({ c with regs := regs }, false)
  else if second = 0x73 then
    let (third, c) := c.fetch
    let flag_bit := third &&& 0x0F
    let regs :=
      if flag_bit = 0 then c.regs.set_flag PSWFlags.C false
      else if flag_bit = 1 then c.regs.set_flag PSWFlags.Z false
      else if flag_bit = 2 then c.regs.set_flag PSWFlags.S false
      else if flag_bit = 3 then c.regs.set_flag PSWFlags.O false
      else if flag_bit = 8 then c.regs.set_flag PSWFlags.I false
      else c.regs
    ({ c with regs := regs }, false)
  else c.undefined_instruction

/-- cpu.py RXCpu._op_fc_prefix (renamed): always undefined after
consuming the second byte. -/
def RXCpu.op_fc_ext (c : RXCpu) : RXCpu × Bool :=
  let (_, c) := c.fetch
  c.undefined_instruction

/-- cpu.py RXCpu._op_76_prefix (renamed): WAIT on second byte 0x90,
otherwise undefined. -/
def RXCpu.op_ext76 (c : RXCpu) : RXCpu × Bool :=
  let (second, c) := c.fetch
  if second = 0x90 then ({ c with state := CPUState.WAITING }, false)
  else c.undefined_instruction

/-- Tags naming the handler methods bound in the instruction table. -/
inductive OpHandler where
  | nop | mov_imm32 | mov_reg | add_imm4 | add_reg | sub_reg | cmp_imm4
  | and_reg | or_reg | xor_reg | push | pop | bsr_w | bra_w | beq | bne
  | rts | mov_b_store | mov_b_load | mov_l_store | mov_l_load
  | fd_ext | fc_ext | ext76
deriving DecidableEq, Repr

/-- The assignment sequence of cpu.py RXCpu._build_instruction_table, in
source order.  Later assignments overwrite earlier ones, exactly as dict
assignment does; in particular the 0xEC..0xEF loop for MOV.L [Rs],Rd
overwrites the earlier binding of 0xEF to MOV.L Rs,Rd. -/
def instruction_assignments : List (Nat × OpHandler) :=
  [(0x03, OpHandler.nop),
   (0xFB, OpHandler.mov_imm32),
   (0xEF, OpHandler.mov_reg),
   (0x62, OpHandler.add_imm4)]
  ++ (List.range 4).map (fun i => (0x48 + i, OpHandler.add_reg))
  ++ (List.range 4).map (fun i => (0x44 + i, OpHandler.sub_reg))
  ++ [(0x61, OpHandler.cmp_imm4)]
  ++ (List.range 4).map (fun i => (0x50 + i, OpHandler.and_reg))
  ++ (List.range 4).map (fun i => (0x54 + i, OpHandler.or_reg))
  ++ (List.range 4).map (fun i => (0x58 + i, OpHandler.xor_reg))
  ++ [(0x7E, OpHandler.push),
      (0x7F, OpHandler.pop),
      (0x39, OpHandler.bsr_w),
      (0x38, OpHandler.bra_w),
      (0x20, OpHandler.beq),
      (0x21, OpHandler.bne),
      (0x02, OpHandler.rts)]
  ++ (List.range 4).map (fun i => (0xC0 + i, OpHandler.mov_b_store))
  ++ (List.range 4).map (fun i => (0xCC + i, OpHandler.mov_b_load))
  ++ (List.range 4).map (fun i => (0xE0 + i, OpHandler.mov_l_store))
  ++ (List.range 4).map (fun i => (0xEC + i, OpHandler.mov_l_load))
  ++ [(0xFD, OpHandler.fd_ext),
      (0xFC, OpHandler.fc_ext),
      (0x76, OpHandler.ext76)]

/-- The finished instruction table: last assignment per opcode wins. -/
def instruction_table : Nat → Option OpHandler :=
  instruction_assignments.foldl
    (fun t kv => fun k => if k = kv.1 then some kv.2 else t k)
    (fun _ => none)

/-- Dispatch of a handler tag to its implementation. -/
def RXCpu.run_handler (c : RXCpu) : OpHandler → RXCpu × Bool
  | OpHandler.nop => c.op_nop
  | OpHandler.mov_imm32 => c.op_mov_imm32
  | OpHandler.mov_reg => c.op_mov_reg
  | OpHandler.add_imm4 => c.op_add_imm4
  | OpHandler.add_reg => c.op_add_reg
  | OpHandler.sub_reg => c.op_sub_reg
  | OpHandler.cmp_imm4 => c.op_cmp_imm4
  | OpHandler.and_reg => c.op_and_reg
  | OpHandler.or_reg => c.op_or_reg
  | OpHandler.xor_reg => c.op_xor_reg
  | OpHandler.push => c.op_push
  | OpHandler.pop => c.op_pop
  | OpHandler.bsr_w => c.op_bsr_w
  | OpHandler.bra_w => c.op_bra_w
  | OpHandler.beq => c.op_beq
  | OpHandler.bne => c.op_bne
  | OpHandler.rts => c.op_rts
  | OpHandler.mov_b_store => c.op_mov_b_store
  | OpHandler.mov_b_load => c.op_mov_b_load
  | OpHandler.mov_l_store => c.op_mov_l_store
  | OpHandler.mov_l_load => c.op_mov_l_load
  | OpHandler.fd_ext => c.op_fd_ext
  | OpHandler.fc_ext => c.op_fc_ext
  | OpHandler.ext76 => c.op_ext76

/-- cpu.py RXCpu._execute: table dispatch, unknown first byte raises the
undefined-instruction error. -/
def RXCpu.execute (c : RXCpu) (opcode : Nat) : RXCpu × Bool :=
  match instruction_table opcode with
  | some h => c.run_handler h
  | none => c.undefined_instruction

/-- cpu.py RXCpu._handle_interrupt: push PSW then PC, clear I, load the
IPL field with the VECTOR number (masked to 4 bits by the ipl setter),
jump through the fixed vector table at 0xFFFFFF80 + vector*4 and
acknowledge the vector at the controller. -/
def RXCpu.handle_interrupt (c : RXCpu) (vector : Nat) : RXCpu :=
  let regs := c.regs.setSp (sub32 c.regs.sp 4)
  let mem := c.mem.write32 regs.sp regs.psw
  let regs := regs.setSp (sub32 regs.sp 4)
  let mem := mem.write32 regs.sp regs.pc
  let regs := regs.set_flag PSWFlags.I false
  let regs := regs.setIpl vector
  let vector_addr := 0xFFFFFF80 + vector * 4
  let handler := mem.read32 vector_addr
  let regs := { regs with pc := handler }
  let ic := c.ic.map (fun ic => ic.acknowledge vector)
  { c with regs := regs, mem := mem, ic := ic }

/-- cpu.py RXCpu.step: breakpoint check, interrupt gate (entry when the
value returned by get_pending_interrupt, a vector number, exceeds the
IPL field and PSW.I is set), fetch, execute, instruction count.  The
result is (new state, returned bool, raised flag). -/
def RXCpu.step (c : RXCpu) : RXCpu × Bool × Bool :=
  if c.regs.pc ∈ c.breakpoints then
    ({ c with state := CPUState.STOPPED }, false, false)
  else
    let c :=
      match c.ic with
      | some ic =>
        if c.regs.get_flag PSWFlags.I then
          match ic.get_pending_interrupt with
          | some pending => if pending > c.regs.ipl then c.handle_interrupt pending else c
          | none => c
        else c
      | none => c
    let (opcode, c) := c.fetch
    let (c, raised) := c.execute opcode
    if raised then (c, false, true)
    else
      let c := { c with instruction_count := c.instruction_count + 1 }
      (c, decide (c.state = CPUState.RUNNING), false)

/-- cpu.py RXCpu.reset: fresh registers, PC loaded from the reset vector
at 0xFFFFFFFC, SP set to the default 0x00020000, PSW back to I only,
counters cleared, state STOPPED. -/
def RXCpu.reset (c : RXCpu) : RXCpu :=
  let regs := CPURegisters.init
  let regs := { regs with pc := c.mem.read32 0xFFFFFFFC }
  let regs := regs.setSp 0x00020000
  let regs := { regs with psw := PSWFlags.I }
  { c with regs := regs, state := CPUState.STOPPED,
           cycle_count := 0, instruction_count := 0 }

/-- Compare match timer channel, from timer.py CMTChannel. -/
structure CMTChannel where
  number : Nat
  cmcr : Nat := 0x0000
  cmcnt : Nat := 0x0000
  cmcor : Nat := 0xFFFF
  running : Bool := false
  compare_match_flag : Bool := false
  interrupt_enabled : Bool := false
  interrupt_vector : Nat := 0
deriving DecidableEq, Repr

/-- timer.py CMTChannel.divider_value through clock_divider: the low two
CMCR bits select a divisor among 8, 32, 128, 512. -/
def CMTChannel.divider_value (ch : CMTChannel) : Nat :=
  match ch.cmcr &&& 0x03 with
  | 0 => 8
  | 1 => 32
  | 2 => 128
  | _ => 512

/-- The while loop of timer.py TimerController.tick for one channel:
as long as the prescale accumulator reaches the divisor, subtract it,
increment CMCNT (16-bit wrap), and on CMCNT == CMCOR set the match
flag, clear CMCNT and request the channel's interrupt when enabled.
The loop terminates because the divisor is at least 8; the fuel
argument, instantiated with the accumulator value itself, is an upper
bound on the iteration count, so the recursion reproduces the loop
exactly. -/
def cmtLoop : Nat → CMTChannel → InterruptController → Nat →
    CMTChannel × InterruptController × Nat
  | 0, ch, ic, pres => (ch, ic, pres)
  | fuel + 1, ch, ic, pres =>
    if ch.divider_value ≤ pres then
      let pres := pres - ch.divider_value
      let ch := { ch with cmcnt := (ch.cmcnt + 1) &&& 0xFFFF }
      if ch.cmcnt == ch.cmcor then
        let ch := { ch with compare_match_flag := true, cmcnt := 0 }
        let ic := if ch.interrupt_enabled then ic.request ch.interrupt_vector else ic
        cmtLoop fuel ch ic pres
      else cmtLoop fuel ch ic pres
    else (ch, ic, pres)

/-- Per-channel body of timer.py TimerController.tick for a running
channel: add the cycles to the channel's prescale accumulator and run
the compare-match loop. -/
def tickChannel (ch : CMTChannel) (pres cycles : Nat) (ic : InterruptController) :
    CMTChannel × InterruptController × Nat :=
  let pres := pres + cycles
  cmtLoop pres ch ic pres

/-- Compare match timer unit (two channels), from timer.py CMTUnit. -/
structure CMTUnit where
  unit_number : Nat
  base_address : Nat
  cmstr : Nat
  channels : List CMTChannel
deriving DecidableEq, Repr

/-- timer.py CMTUnit.__init__: CMSTR zero, two fresh channels numbered
unit*2 and unit*2+1 with interrupt vectors 28+unit*2 and 29+unit*2. -/
def CMTUnit.init (unit_number base_address : Nat) : CMTUnit :=
  { unit_number := unit_number, base_address := base_address, cmstr := 0,
    channels :=
      [{ number := unit_number * 2, interrupt_vector := 28 + unit_number * 2 },
       { number := unit_number * 2 + 1, interrupt_vector := 29 + unit_number * 2 }] }

/-- State of timer.py TimerController: the CMT units and the per-channel
prescale accumulators (a dict defaulting to 0, modelled as a total
function).  The clock frequency and timer callbacks do not affect the
claims and are omitted. -/
structure TimerController where
  cmt_units : List CMTUnit
  prescale_counters : Nat → Nat

/-- timer.py TimerController.__init__: units 0 and 1 at the two CMT base
addresses, empty prescale table. -/
def TimerController.init : TimerController :=
  { cmt_units := [CMTUnit.init 0 0x00088000, CMTUnit.init 1 0x00088010],
    prescale_counters := fun _ => 0 }

/-- Channel iteration of timer.py TimerController.tick inside one unit:
channels are visited in index order; a stopped channel is skipped
without touching its prescale accumulator. -/
def tickChannels (unit_number cycles : Nat) :
    List CMTChannel → Nat → (Nat → Nat) → InterruptController →
    List CMTChannel × (Nat → Nat) × InterruptController
  | [], _, counters, ic => ([], counters, ic)
  | ch :: rest, ch_idx, counters, ic =>
    if ch.running then
      let ch_id := unit_number * 2 + ch_idx
      let (ch', ic', p') := tickChannel ch (counters ch_id) cycles ic
      let counters' := fun k => if k = ch_id then p' else counters k
      let (rest', counters'', ic'') :=
        tickChannels unit_number cycles rest (ch_idx + 1) counters' ic'
      (ch' :: rest', counters'', ic'')
    else
      let (rest', counters', ic') :=
        tickChannels unit_number cycles rest (ch_idx + 1) counters ic
      (ch :: rest', counters', ic')

/-- Unit iteration of timer.py TimerController.tick. -/
def tickUnits (cycles : Nat) :
    List CMTUnit → (Nat → Nat) → InterruptController →
    List CMTUnit × (Nat → Nat) × InterruptController
  | [], counters, ic => ([], counters, ic)
  | u :: rest, counters, ic =>
    let (chs', counters', ic') :=
      tickChannels u.unit_number cycles u.channels 0 counters ic
    let (rest', counters'', ic'') := tickUnits cycles rest counters' ic'
    ({ u with channels := chs' } :: rest', counters'', ic'')

/-- timer.py TimerController.tick over all units and channels, threading
the shared interrupt controller. -/
def TimerController.tick (tc : TimerController) (cycles : Nat)
    (ic : InterruptController) : TimerController × InterruptController :=
  let (units', counters', ic') := tickUnits cycles tc.cmt_units tc.prescale_counters ic
  ({ cmt_units := units', prescale_counters := counters' }, ic')

/-- timer.py TimerController.reset: stop everything, restore register
defaults, clear the prescale table. -/
def TimerController.reset (tc : TimerController) : TimerController :=
  { cmt_units := tc.cmt_units.map (fun u =>
      { u with cmstr := 0,
               channels := u.channels.map (fun ch =>
                 { ch with cmcr := 0, cmcnt := 0, cmcor := 0xFFFF,
                           running := false, compare_match_flag := false,
                           interrupt_enabled := false }) }),
    prescale_counters := fun _ => 0 }

/-- State of emulator.py RX65NEmulator as far as the claims need it: the
CPU machine (with its memory and interrupt controller), the timer, the
tick counter of clock.py ClockController (its only state touched by
step), the execution controller's breakpoint set, and the run/error
flags.  GPIO, the board, and the loaders are outside the model. -/
structure RX65NEmulator where
  cpu : RXCpu
  timer : TimerController
  clock_tick_count : Nat
  exec_breakpoints : List Nat
  running : Bool
  error_raised : Bool

/-- emulator.py RX65NEmulator.step: execution-controller breakpoint
check, one CPU step, then clock.tick(self.cpu.cycle_count) -- the
argument is the CUMULATIVE cycle counter -- which adds the argument to
the clock's tick_count and forwards the same argument through
_on_clock_tick to timer.tick.  An exception from the CPU is caught:
last_error is recorded and False returned, skipping the clock tick.
The facade always connects the interrupt controller, so the cpu.ic
field is some controller in every reachable state. -/
def RX65NEmulator.step (e : RX65NEmulator) : RX65NEmulator × Bool :=
  if e.cpu.regs.pc ∈ e.exec_breakpoints then (e, false)
  else
    let (c, ret, raised) := e.cpu.step
    if raised then
      ({ e with cpu := c, error_raised := true, running := false }, false)
    else
      let arg := c.cycle_count
      let ic0 := c.ic.getD { sources := [], pending_queue := [], nest_stack := [] }
      let (tc, ic') := e.timer.tick arg ic0
      ({ e with cpu := { c with ic := some ic' }, timer := tc,
                clock_tick_count := e.clock_tick_count + arg }, ret)

/-- emulator.py RX65NEmulator.reset via ResetController.trigger_reset:
clear the RAM blocks, then the _on_reset callback resets the CPU (which
re-reads the reset vector from the cleared-RAM memory), the timer, the
interrupt controller and the clock tick counter; finally the run and
error flags are cleared.  GPIO and board resets are outside the model. -/
def RX65NEmulator.reset (e : RX65NEmulator) : RX65NEmulator :=
  let cpu := { e.cpu with mem := e.cpu.mem.reset }
  let cpu := cpu.reset
  let cpu := { cpu with ic := cpu.ic.map InterruptController.reset }
  { e with cpu := cpu, timer := e.timer.reset, clock_tick_count := 0,
           running := false, error_raised := false }

/-- An empty interrupt controller (no sources), used when a concrete
machine needs a connected but idle controller. -/
def emptyIC : InterruptController :=
  { sources := [], pending_queue := [], nest_stack := [] }

/-- Small concrete memory for the CPU evaluation states: a 512-byte RAM
block at 0 holding program and stack, and the 128-byte fixed vector
table block at 0xFFFFFF80, with no peripheral handlers.  prog lists the
(address, byte) pairs placed in RAM, vec the (offset, byte) pairs placed
in the vector table. -/
def testMem (prog vec : List (Nat × Nat)) : MemoryController :=
  { blocks :=
      [{ name := "RAM", start := 0x00000000, size := 0x200,
         region_type := MemoryRegion.RAM,
         data := prog.foldl (fun d p => d.set p.1 p.2) (List.replicate 0x200 0),
         readonly := false },
       { name := "FixedVector", start := 0xFFFFFF80, size := 0x80,
         region_type := MemoryRegion.FLASH,
         data := vec.foldl (fun d p => d.set p.1 p.2) (List.replicate 0x80 0),
         readonly := false }],
    handlers := fun _ => false,
    hread := fun _ => 0 }

/-- Machine for the C1 evaluation: PSW.I set, IPL = 5, one enabled and
pending source (vector 28) whose configured priority 0 does not exceed
the IPL; NOP at PC 0x100, NOP at the vector-28 handler 0x180, SP 0xF0. -/
def c1_cpu : RXCpu :=
  { regs := { CPURegisters.init with
                r := (List.replicate 16 0).set 0 0xF0,
                pc := 0x100, psw := 0x05010000 },
    state := CPUState.RUNNING,
    mem := testMem [(0x100, 0x03), (0x180, 0x03)] [(0x70, 0x80), (0x71, 0x01)],
    ic := some { sources := [{ vector := 28, name := "CMT0_CMI0", priority := 0,
                               enabled := true, pending := true }],
                 pending_queue := [], nest_stack := [] },
    cycle_count := 0, instruction_count := 0, breakpoints := [] }

/-- Machine for the C2 evaluation: PSW.I set, IPL = 0, one enabled and
pending source with vector 28 and configured priority 3; NOP at PC 0x100
and at the handler 0x180, SP 0xF0. -/
def c2_cpu : RXCpu :=
  { regs := { CPURegisters.init with
                r := (List.replicate 16 0).set 0 0xF0,
                pc := 0x100, psw := 0x00010000 },
    state := CPUState.RUNNING,
    mem := testMem [(0x100, 0x03), (0x180, 0x03)] [(0x70, 0x80), (0x71, 0x01)],
    ic := some { sources := [{ vector := 28, name := "CMT0_CMI0", priority := 3,
                               enabled := true, pending := true }],
                 pending_queue := [], nest_stack := [] },
    cycle_count := 0, instruction_count := 0, breakpoints := [] }

/-- Machine for the C3 evaluation: the engine is WAITING (after a WAIT
instruction), no interrupt is pending, and a NOP sits at PC 0x100. -/
def c3_cpu : RXCpu :=
  { regs := { CPURegisters.init with
                r := (List.replicate 16 0).set 0 0xF0,
                pc := 0x100, psw := 0x00010000 },
    state := CPUState.WAITING,
    mem := testMem [(0x100, 0x03)] [],
    ic := some emptyIC,
    cycle_count := 0, instruction_count := 0, breakpoints := [] }

/-- Machine for the C4 evaluation: R1 = 0xFFFFFFFF, R2 = 1, and the
bytes 0x48 0x21 (ADD R2, R1) at PC 0x100; PSW fully clear. -/
def c4_cpu : RXCpu :=
  { regs := { CPURegisters.init with
                r := ((List.replicate 16 0).set 1 0xFFFFFFFF).set 2 1,
                pc := 0x100, psw := 0 },
    state := CPUState.RUNNING,
    mem := testMem [(0x100, 0x48), (0x101, 0x21)] [],
    ic := none,
    cycle_count := 0, instruction_count := 0, breakpoints := [] }

/-- Machine for the C5 evaluation: the bytes 0xEF 0x12 at PC 0x100
(first opcode byte 0xEF, register byte rs = 1, rd = 2), R1 = 0x40, and
the little-endian word 0xAABBCCDD stored in RAM at address 0x40. -/
def c5_cpu : RXCpu :=
  { regs := { CPURegisters.init with
                r := (List.replicate 16 0).set 1 0x40,
                pc := 0x100, psw := 0 },
    state := CPUState.RUNNING,
    mem := testMem [(0x100, 0xEF), (0x101, 0x12),
                    (0x40, 0xDD), (0x41, 0xCC), (0x42, 0xBB), (0x43, 0xAA)] [],
    ic := none,
    cycle_count := 0, instruction_count := 0, breakpoints := [] }

/-- Emulator state for the C8 evaluation: two NOPs at PC 0x100, idle
interrupt controller, default (stopped) timers, clock tick counter 0. -/
def c8_emu : RX65NEmulator :=
  { cpu := { regs := { CPURegisters.init with
                         r := (List.replicate 16 0).set 0 0xF0,
                         pc := 0x100, psw := 0x00010000 },
             state := CPUState.RUNNING,
             mem := testMem [(0x100, 0x03), (0x101, 0x03)] [],
             ic := some emptyIC,
             cycle_count := 0, instruction_count := 0, breakpoints := [] },
    timer := TimerController.init,
    clock_tick_count := 0, exec_breakpoints := [],
    running := true, error_raised := false }

/-- Emulator state for the C9 evaluation: the reset vector word at
0xFFFFFFFC (vector-table offset 0x7C) holds 0xFFE00000. -/
def c9_emu : RX65NEmulator :=
  { cpu := { regs := { CPURegisters.init with pc := 0x123, psw := 0x1234 },
             state := CPUState.RUNNING,
             mem := testMem [] [(0x7C, 0x00), (0x7D, 0x00), (0x7E, 0xE0), (0x7F, 0xFF)],
             ic := some emptyIC,
             cycle_count := 7, instruction_count := 5, breakpoints := [] },
    timer := TimerController.init,
    clock_tick_count := 9, exec_breakpoints := [],
    running := true, error_raised := false }

/-- Timer channel for the C7 counterexample: running, CMCOR = 0, CMCNT =
0, divider 8 (CMCR low bits 0), interrupts enabled toward vector 28. -/
def c7_channel : CMTChannel :=
  { number := 0, cmcr := 0, cmcnt := 0, cmcor := 0, running := true,
    compare_match_flag := false, interrupt_enabled := true, interrupt_vector := 28 }

/-- Timer controller for the C7 counterexample: unit 0 carries the
running channel, everything else is at reset defaults. -/
def c7_timer : TimerController :=
  { cmt_units :=
      [{ unit_number := 0, base_address := 0x00088000, cmstr := 1,
         channels := [c7_channel, { number := 1, interrupt_vector := 29 }] },
       CMTUnit.init 1 0x00088010],
    prescale_counters := fun _ => 0 }

/-- Interrupt controller for the C7 counterexample: vector 28 exists,
is enabled, and is not pending. -/
def c7_ic : InterruptController :=
  { sources := [{ vector := 28, name := "CMT0_CMI0", priority := 1, enabled := true }],
    pending_queue := [], nest_stack := [] }

/-- Concrete two-block memory controller for the C10 witness: one RAM
block with dirty contents and one flash block. -/
def c10_mem : MemoryController :=
  { blocks :=
      [{ name := "RAM", start := 0, size := 4, region_type := MemoryRegion.RAM,
         data := [1, 2, 3, 4], readonly := false },
       { name := "Flash", start := 0x100, size := 4, region_type := MemoryRegion.FLASH,
         data := [5, 6, 7, 8], readonly := false }],
    handlers := fun a => a == 0x00088000,
    hread := fun _ => 0 }
/-- Concrete memory controller for the C6 witness: one writable RAM
block of 16 zero bytes at address 0, no peripheral handlers. -/
def c6_mem : MemoryController :=
  { blocks := [{ name := "RAM", start := 0, size := 16,
                 region_type := MemoryRegion.RAM,
                 data := List.replicate 16 0, readonly := false }],
    handlers := fun _ => false,
    hread := fun _ => 0 }

/-- The single block of c6_mem. -/
def c6_block : MemoryBlock :=
  { name := "RAM", start := 0, size := 16, region_type := MemoryRegion.RAM,
    data := List.replicate 16 0, readonly := false }

/-- Timer channel for the C7 witness: as c7_channel but with CMCNT at
the wrap point 0xFFFF. -/
def c7w_channel : CMTChannel :=
  { number := 0, cmcr := 0, cmcnt := 0xFFFF, cmcor := 0, running := true,
    compare_match_flag := false, interrupt_enabled := true, interrupt_vector := 28 }


set_option maxRecDepth 10000

/-! Helper lemmas: list updates, bit masks, and the behaviour of the
block store under writes. -/

theorem getD_set_self {l : List Nat} {i v : Nat} (h : i < l.length) :
    (l.set i v).getD i 0 = v := by
  induction l generalizing i with
  | nil => simp at h
  | cons a t ih =>
    cases i with
    | zero => simp [List.set, List.getD]
    | succ n =>
      simp only [List.set, List.getD_cons_succ]
      exact ih (by simpa using h)

theorem getD_set_ne {l : List Nat} {i j v : Nat} (h : i ≠ j) :
    (l.set i v).getD j 0 = l.getD j 0 := by
  induction l generalizing i j with
  | nil => simp [List.set]
  | cons a t ih =>
    cases i with
    | zero =>
      cases j with
      | zero => exact absurd rfl h
      | succ m => simp [List.set, List.getD_cons_succ]
    | succ n =>
      cases j with
      | zero => simp [List.set, List.getD_cons_zero]
      | succ m =>
        simp only [List.set, List.getD_cons_succ]
        exact ih (by omega)

theorem findBlock_containsB {blocks : List MemoryBlock} {addr : Nat} {b : MemoryBlock}
    (h : findBlock blocks addr = some b) : b.containsB addr = true := by
  unfold findBlock at h
  exact @List.find?_some _ (fun x => x.containsB addr) b blocks h

theorem containsB_data {b : MemoryBlock} {d : List Nat} {addr : Nat} :
    MemoryBlock.containsB { b with data := d } addr = b.containsB addr := rfl

theorem findBlock_writeBlocks {blocks : List MemoryBlock} {aw ar v : Nat} {b : MemoryBlock}
    (hw : findBlock blocks aw = some b) (hr : findBlock blocks ar = some b) :
    findBlock (writeBlocks blocks aw v) ar =
      some (if b.readonly then b else { b with data := b.data.set (aw - b.start) v }) := by
  induction blocks with
  | nil => simp [findBlock] at hw
  | cons h t ih =>
    by_cases hcw : h.containsB aw
    · have hb : h = b := by
        have := hw
        simp [findBlock, List.find?_cons, hcw] at this
        exact this
      subst hb
      by_cases hro : h.readonly
      · have hwb : writeBlocks (h :: t) aw v = h :: t := by
          simp [writeBlocks, hcw, hro]
        rw [hwb, if_pos hro]
        exact hr
      · have hcr : h.containsB ar = true := by
          by_cases hc : h.containsB ar
          · exact hc
          · exfalso
            have hfind : findBlock t ar = some h := by
              simpa [findBlock, List.find?_cons, hc] using hr
            exact hc (findBlock_containsB hfind)
        have hwb : writeBlocks (h :: t) aw v =
            { h with data := h.data.set (aw - h.start) v } :: t := by
          simp [writeBlocks, hcw, hro]
        rw [hwb, if_neg hro]
        have hcr' : MemoryBlock.containsB { h with data := h.data.set (aw - h.start) v } ar = true := by
          rw [containsB_data]
          exact hcr
        simp [findBlock, List.find?_cons, hcr']
    · have hw' : findBlock t aw = some b := by
        simpa [findBlock, List.find?_cons, hcw] using hw
      by_cases hcr : h.containsB ar
      · exfalso
        have hb : h = b := by
          simpa [findBlock, List.find?_cons, hcr] using hr
        subst hb
        exact hcw (findBlock_containsB hw')
      · have hr' : findBlock t ar = some b := by
          simpa [findBlock, List.find?_cons, hcr] using hr
        have hwb : writeBlocks (h :: t) aw v = h :: writeBlocks t aw v := by
          simp [writeBlocks, hcw]
        rw [hwb]
        have hgoal := ih hw' hr'
        simpa [findBlock, List.find?_cons, hcr] using hgoal

theorem and_two_pow_sub_one (x n : Nat) : x &&& (2 ^ n - 1) = x % 2 ^ n := by
  apply Nat.eq_of_testBit_eq
  intro i
  simp [Nat.testBit_land, Nat.testBit_two_pow_sub_one, Nat.testBit_mod_two_pow, Bool.and_comm]

theorem and_mask32 (x : Nat) : x &&& 0xFFFFFFFF = x % 4294967296 := by
  have h := and_two_pow_sub_one x 32
  norm_num at h
  exact h

theorem and_mask32_identity {x : Nat} (h : x < 4294967296) : x &&& 0xFFFFFFFF = x := by
  rw [and_mask32]
  exact Nat.mod_eq_of_lt h

theorem and_mask8 (x : Nat) : x &&& 0xFF = x % 256 := by
  have h := and_two_pow_sub_one x 8
  norm_num at h
  exact h

theorem read8_no_handler {m : MemoryController} {addr : Nat}
    (hlt : addr < 4294967296) (hh : m.handlers addr = false) :
    m.read8 addr = readBlocks m.blocks addr := by
  unfold MemoryController.read8
  rw [and_mask32_identity hlt]
  simp [hh]

theorem write8_no_handler {m : MemoryController} {addr v : Nat}
    (hlt : addr < 4294967296) (hh : m.handlers addr = false) :
    m.write8 addr v = { m with blocks := writeBlocks m.blocks addr (v &&& 0xFF) } := by
  unfold MemoryController.write8
  rw [and_mask32_identity hlt]
  simp [hh]

theorem step_write {blocks : List MemoryBlock} {aw ar v : Nat} {b : MemoryBlock}
    (hw : findBlock blocks aw = some b) (hr : findBlock blocks ar = some b)
    (hro : b.readonly = false) :
    findBlock (writeBlocks blocks aw v) ar =
      some { b with data := b.data.set (aw - b.start) v } := by
  rw [findBlock_writeBlocks hw hr]
  simp [hro]

theorem and8_idem (x : Nat) : x &&& 0xFF &&& 0xFF = x &&& 0xFF := by
  conv_lhs => rw [and_mask8, and_mask8]
  rw [and_mask8]
  omega

theorem containsB_le {b : MemoryBlock} {addr : Nat} (h : b.containsB addr = true) :
    b.start ≤ addr := by
  unfold MemoryBlock.containsB at h
  simp at h
  exact h.1

theorem readBlocks_eq {blocks : List MemoryBlock} {a : Nat} {b : MemoryBlock}
    (h : findBlock blocks a = some b) :
    readBlocks blocks a = b.data.getD (a - b.start) 0 := by
  unfold readBlocks
  rw [h]

theorem read8_mk {bl : List MemoryBlock} {hs : Nat → Bool} {hrd : Nat → Nat} {addr : Nat}
    (hlt : addr < 4294967296) (hh : hs addr = false) :
    MemoryController.read8 ⟨bl, hs, hrd⟩ addr = readBlocks bl addr :=
  read8_no_handler hlt hh

theorem write8_mk {bl : List MemoryBlock} {hs : Nat → Bool} {hrd : Nat → Nat} {addr v : Nat}
    (hlt : addr < 4294967296) (hh : hs addr = false) :
    MemoryController.write8 ⟨bl, hs, hrd⟩ addr v = ⟨writeBlocks bl addr (v &&& 0xFF), hs, hrd⟩ :=
  write8_no_handler hlt hh

theorem recompose16 (v : Nat) :
    (((v >>> 8) &&& 0xFF) <<< 8) ||| (v &&& 0xFF) = v % 65536 := by
  apply Nat.eq_of_testBit_eq
  intro i
  have h16 : (65536 : Nat) = 2 ^ 16 := by norm_num
  have h255 : (0xFF : Nat) = 2 ^ 8 - 1 := by norm_num
  rw [h16, h255]
  simp only [Nat.testBit_lor, Nat.testBit_shiftLeft, Nat.testBit_land,
    Nat.testBit_shiftRight, Nat.testBit_two_pow_sub_one, Nat.testBit_mod_two_pow]
  by_cases h1 : i < 8
  · have : ¬ (i ≥ 8) := by omega
    simp [h1, this, show i < 16 by omega]
  · by_cases h2 : i < 16
    · have hge : i ≥ 8 := by omega
      have : 8 + (i - 8) = i := by omega
      simp [h1, h2, hge, this, show i - 8 < 8 by omega]
    · simp [h2, show ¬ (i - 8 < 8) by omega, show 8 ≤ i by omega]

theorem recompose32 (v : Nat) :
    (((v >>> 24) &&& 0xFF) <<< 24) ||| (((v >>> 16) &&& 0xFF) <<< 16) |||
      (((v >>> 8) &&& 0xFF) <<< 8) ||| (v &&& 0xFF) = v % 4294967296 := by
  apply Nat.eq_of_testBit_eq
  intro i
  have h32 : (4294967296 : Nat) = 2 ^ 32 := by norm_num
  have h255 : (0xFF : Nat) = 2 ^ 8 - 1 := by norm_num
  rw [h32, h255]
  simp only [Nat.testBit_lor, Nat.testBit_shiftLeft, Nat.testBit_land,
    Nat.testBit_shiftRight, Nat.testBit_two_pow_sub_one, Nat.testBit_mod_two_pow]
  by_cases h1 : i < 8
  · simp [show ¬ (i ≥ 8) by omega, show ¬ (i ≥ 16) by omega, show ¬ (i ≥ 24) by omega,
      show i < 32 by omega, h1]
  · by_cases h2 : i < 16
    · have : 8 + (i - 8) = i := by omega
      simp [show i ≥ 8 by omega, show ¬ (i ≥ 16) by omega, show ¬ (i ≥ 24) by omega,
        this, show i - 8 < 8 by omega, show i < 32 by omega]
    · by_cases h3 : i < 24
      · have : 16 + (i - 16) = i := by omega
        simp [show i ≥ 8 by omega, show i ≥ 16 by omega, show ¬ (i ≥ 24) by omega,
          this, show i - 16 < 8 by omega, show i < 32 by omega,
          show ¬ (i - 8 < 8) by omega]
      · by_cases h4 : i < 32
        · have : 24 + (i - 24) = i := by omega
          simp [show i ≥ 8 by omega, show i ≥ 16 by omega, show i ≥ 24 by omega,
            this, show i - 24 < 8 by omega, show i < 32 by omega,
            show ¬ (i - 8 < 8) by omega, show ¬ (i - 16 < 8) by omega]
        · simp [show ¬ (i < 32) by omega, show ¬ (i - 8 < 8) by omega,
            show ¬ (i - 16 < 8) by omega, show ¬ (i - 24 < 8) by omega,
            show 8 ≤ i by omega]

theorem step_write_mk {blocks : List MemoryBlock} {aw ar v : Nat}
    {nm : String} {st sz : Nat} {rt : MemoryRegion} {d : List Nat}
    (hw : findBlock blocks aw = some ⟨nm, st, sz, rt, d, false⟩)
    (hr : findBlock blocks ar = some ⟨nm, st, sz, rt, d, false⟩) :
    findBlock (writeBlocks blocks aw v) ar =
      some ⟨nm, st, sz, rt, d.set (aw - st) v, false⟩ := by
  have h := @findBlock_writeBlocks blocks aw ar v _ hw hr
  rw [h]
  simp

theorem roundtrip32 (m : MemoryController) (a v : Nat) (b : MemoryBlock)
    (hb : a + 3 < 4294967296)
    (hh : ∀ i, i < 4 → m.handlers (a + i) = false)
    (hf : ∀ i, i < 4 → findBlock m.blocks (a + i) = some b)
    (hro : b.readonly = false)
    (hoff : ∀ i, i < 4 → a + i - b.start < b.data.length) :
    (m.write32 a v).read32 a = v % 4294967296 := by
  obtain ⟨bl, hs, hrd⟩ := m
  obtain ⟨nm, st, sz, rt, d, ro⟩ := b
  dsimp only at hh hf hro hoff
  subst hro
  have hsle : st ≤ a := by
    have h := containsB_le (findBlock_containsB (hf 0 (by norm_num)))
    dsimp only at h
    omega
  have ha0 : a < 4294967296 := by omega
  have ha1 : a + 1 < 4294967296 := by omega
  have ha2 : a + 2 < 4294967296 := by omega
  have ha3 : a + 3 < 4294967296 := by omega
  have hh0 : hs a = false := by have h := hh 0 (by norm_num); simpa using h
  have hh1 : hs (a + 1) = false := hh 1 (by norm_num)
  have hh2 : hs (a + 2) = false := hh 2 (by norm_num)
  have hh3 : hs (a + 3) = false := hh 3 (by norm_num)
  have hf0 : findBlock bl a = some ⟨nm, st, sz, rt, d, false⟩ := by
    have h := hf 0 (by norm_num); simpa using h
  have hf1 : findBlock bl (a + 1) = some ⟨nm, st, sz, rt, d, false⟩ := hf 1 (by norm_num)
  have hf2 : findBlock bl (a + 2) = some ⟨nm, st, sz, rt, d, false⟩ := hf 2 (by norm_num)
  have hf3 : findBlock bl (a + 3) = some ⟨nm, st, sz, rt, d, false⟩ := hf 3 (by norm_num)
  have ho0 : a - st < d.length := by have h := hoff 0 (by norm_num); simpa using h
  have ho1 : a + 1 - st < d.length := hoff 1 (by norm_num)
  have ho2 : a + 2 - st < d.length := hoff 2 (by norm_num)
  have ho3 : a + 3 - st < d.length := hoff 3 (by norm_num)
  simp only [MemoryController.write32, MemoryController.read32]
  rw [write8_mk ha0 hh0, write8_mk ha1 hh1, write8_mk ha2 hh2, write8_mk ha3 hh3]
  rw [read8_mk ha0 hh0, read8_mk ha1 hh1, read8_mk ha2 hh2, read8_mk ha3 hh3]
  simp only [and8_idem]
  set x0 := v &&& 0xFF with hx0
  set x1 := (v >>> 8) &&& 0xFF with hx1
  set x2 := (v >>> 16) &&& 0xFF with hx2
  set x3 := (v >>> 24) &&& 0xFF with hx3
  have g10 := step_write_mk (v := x0) hf0 hf0
  have g11 := step_write_mk (v := x0) hf0 hf1
  have g12 := step_write_mk (v := x0) hf0 hf2
  have g13 := step_write_mk (v := x0) hf0 hf3
  have g20 := step_write_mk (v := x1) g11 g10
  have g21 := step_write_mk (v := x1) g11 g11
  have g22 := step_write_mk (v := x1) g11 g12
  have g23 := step_write_mk (v := x1) g11 g13
  have g30 := step_write_mk (v := x2) g22 g20
  have g31 := step_write_mk (v := x2) g22 g21
  have g32 := step_write_mk (v := x2) g22 g22
  have g33 := step_write_mk (v := x2) g22 g23
  have g40 := step_write_mk (v := x3) g33 g30
  have g41 := step_write_mk (v := x3) g33 g31
  have g42 := step_write_mk (v := x3) g33 g32
  have g43 := step_write_mk (v := x3) g33 g33
  rw [readBlocks_eq g40, readBlocks_eq g41, readBlocks_eq g42, readBlocks_eq g43]
  dsimp only
  have e0 : ((((d.set (a - st) x0).set (a + 1 - st) x1).set (a + 2 - st) x2).set
      (a + 3 - st) x3).getD (a - st) 0 = x0 := by
    rw [getD_set_ne (by omega), getD_set_ne (by omega), getD_set_ne (by omega),
      getD_set_self ho0]
  have e1 : ((((d.set (a - st) x0).set (a + 1 - st) x1).set (a + 2 - st) x2).set
      (a + 3 - st) x3).getD (a + 1 - st) 0 = x1 := by
    rw [getD_set_ne (by omega), getD_set_ne (by omega),
      getD_set_self (by simpa using ho1)]
  have e2 : ((((d.set (a - st) x0).set (a + 1 - st) x1).set (a + 2 - st) x2).set
      (a + 3 - st) x3).getD (a + 2 - st) 0 = x2 := by
    rw [getD_set_ne (by omega), getD_set_self (by simpa using ho2)]
  have e3 : ((((d.set (a - st) x0).set (a + 1 - st) x1).set (a + 2 - st) x2).set
      (a + 3 - st) x3).getD (a + 3 - st) 0 = x3 := by
    rw [getD_set_self (by simpa using ho3)]
  rw [e0, e1, e2, e3, hx0, hx1, hx2, hx3]
  exact recompose32 v

theorem roundtrip8 (m : MemoryController) (a v : Nat) (b : MemoryBlock)
    (hb : a < 4294967296)
    (hh : m.handlers a = false)
    (hf : findBlock m.blocks a = some b)
    (hro : b.readonly = false)
    (hoff : a - b.start < b.data.length) :
    (m.write8 a v).read8 a = v % 256 := by
  obtain ⟨bl, hs, hrd⟩ := m
  obtain ⟨nm, st, sz, rt, d, ro⟩ := b
  dsimp only at hh hf hro hoff
  subst hro
  rw [write8_mk hb hh, read8_mk hb hh]
  have g := step_write_mk (v := v &&& 0xFF) hf hf
  rw [readBlocks_eq g]
  dsimp only
  rw [getD_set_self hoff]
  exact and_mask8 v

theorem roundtrip16 (m : MemoryController) (a v : Nat) (b : MemoryBlock)
    (hb : a + 1 < 4294967296)
    (hh : ∀ i, i < 2 → m.handlers (a + i) = false)
    (hf : ∀ i, i < 2 → findBlock m.blocks (a + i) = some b)
    (hro : b.readonly = false)
    (hoff : ∀ i, i < 2 → a + i - b.start < b.data.length) :
    (m.write16 a v).read16 a = v % 65536 := by
  obtain ⟨bl, hs, hrd⟩ := m
  obtain ⟨nm, st, sz, rt, d, ro⟩ := b
  dsimp only at hh hf hro hoff
  subst hro
  have hsle : st ≤ a := by
    have h := containsB_le (findBlock_containsB (hf 0 (by norm_num)))
    dsimp only at h
    omega
  have ha0 : a < 4294967296 := by omega
  have hh0 : hs a = false := by have h := hh 0 (by norm_num); simpa using h
  have hh1 : hs (a + 1) = false := hh 1 (by norm_num)
  have hf0 : findBlock bl a = some ⟨nm, st, sz, rt, d, false⟩ := by
    have h := hf 0 (by norm_num); simpa using h
  have hf1 : findBlock bl (a + 1) = some ⟨nm, st, sz, rt, d, false⟩ := hf 1 (by norm_num)
  have ho0 : a - st < d.length := by have h := hoff 0 (by norm_num); simpa using h
  have ho1 : a + 1 - st < d.length := hoff 1 (by norm_num)
  simp only [MemoryController.write16, MemoryController.read16]
  rw [write8_mk ha0 hh0, write8_mk hb hh1]
  rw [read8_mk ha0 hh0, read8_mk hb hh1]
  simp only [and8_idem]
  set x0 := v &&& 0xFF with hx0
  set x1 := (v >>> 8) &&& 0xFF with hx1
  have g10 := step_write_mk (v := x0) hf0 hf0
  have g11 := step_write_mk (v := x0) hf0 hf1
  have g20 := step_write_mk (v := x1) g11 g10
  have g21 := step_write_mk (v := x1) g11 g11
  rw [readBlocks_eq g20, readBlocks_eq g21]
  dsimp only
  have e0 : ((d.set (a - st) x0).set (a + 1 - st) x1).getD (a - st) 0 = x0 := by
    rw [getD_set_ne (by omega), getD_set_self ho0]
  have e1 : ((d.set (a - st) x0).set (a + 1 - st) x1).getD (a + 1 - st) 0 = x1 := by
    rw [getD_set_self (by simpa using ho1)]
  rw [e0, e1, hx0, hx1]
  exact recompose16 v

theorem and_mask16 (x : Nat) : x &&& 0xFFFF = x % 65536 := by
  have h := and_two_pow_sub_one x 16
  norm_num at h
  exact h

theorem divider_value_pos (ch : CMTChannel) : 0 < ch.divider_value := by
  unfold CMTChannel.divider_value
  split <;> norm_num

theorem cmtLoop_exit (fuel : Nat) (ch : CMTChannel) (ic : InterruptController) (pres : Nat)
    (h : pres < ch.divider_value) : cmtLoop fuel ch ic pres = (ch, ic, pres) := by
  cases fuel with
  | zero => rfl
  | succ n =>
    unfold cmtLoop
    rw [if_neg (by omega)]

/-- C7 (amended): for a running CMT channel with CMCOR = 0, a single
increment of the prescaled counter (cycles equal to the divider, empty
prescale accumulator) produces a compare match ONLY when it wraps CMCNT
from 0xFFFF to 0; on that increment the match flag is set, CMCNT is
cleared and the channel's interrupt is requested when enabled, while
any other increment merely advances CMCNT and requests nothing. -/
theorem c7_cmcor_zero_match_only_on_wrap (ch : CMTChannel) (ic : InterruptController)
    (_hrun : ch.running = true) (hcor : ch.cmcor = 0) (hcnt : ch.cmcnt < 65536) :
    tickChannel ch 0 ch.divider_value ic =
      if ch.cmcnt = 65535 then
        ({ ch with cmcnt := 0, compare_match_flag := true },
         (if ch.interrupt_enabled then ic.request ch.interrupt_vector else ic), 0)
      else
        ({ ch with cmcnt := ch.cmcnt + 1 }, ic, 0) := by
  have hd : 0 < ch.divider_value := divider_value_pos ch
  obtain ⟨k, hk⟩ : ∃ k, ch.divider_value = k + 1 := ⟨ch.divider_value - 1, by omega⟩
  unfold tickChannel
  rw [Nat.zero_add]
  by_cases hw : ch.cmcnt = 65535
  · rw [if_pos hw]
    conv_lhs => rw [hk]
    unfold cmtLoop
    rw [if_pos (by omega)]
    have hmask : (ch.cmcnt + 1) &&& 0xFFFF = 0 := by
      rw [and_mask16, hw]
    simp only [hmask, hk, Nat.add_sub_cancel]
    have hbeq : (0 == ch.cmcor) = true := by
      rw [hcor]
      rfl
    simp only [hbeq, if_true]
    rw [Nat.sub_self]
    exact cmtLoop_exit k _ _ 0 (divider_value_pos _)
  · rw [if_neg hw]
    conv_lhs => rw [hk]
    unfold cmtLoop
    rw [if_pos (by omega)]
    have hmask : (ch.cmcnt + 1) &&& 0xFFFF = ch.cmcnt + 1 := by
      rw [and_mask16]
      exact Nat.mod_eq_of_lt (by omega)
    have hbeq : (ch.cmcnt + 1 == ch.cmcor) = false := by
      rw [hcor]
      simp
    simp only [hmask, hbeq, if_false, hk, Nat.sub_self]
    exact cmtLoop_exit k _ _ 0 (divider_value_pos _)

/-! The claim theorems.  Each states the decisive property for one claim
of the specification review. -/

/-- C1: the claim says interrupt entry happens only when some enabled
pending source has configured priority strictly greater than the IPL
field.  The code instead compares the VECTOR returned by
get_pending_interrupt against the IPL.  In c1_cpu PSW.I is set, IPL is
5, and the only source (vector 28) is enabled and pending with priority
0, so no source's priority exceeds the IPL and the claim forbids entry;
yet step performs full interrupt entry because 28 > 5: SP drops by 8
for the two pushes, the vector is acknowledged onto the nest stack, and
execution continues at the handler (0x180) so PC ends at 0x181. -/
theorem c1_interrupt_gate_takes_low_priority_interrupt :
    c1_cpu.regs.get_flag PSWFlags.I = true ∧
    c1_cpu.regs.ipl = 5 ∧
    ((c1_cpu.ic.getD emptyIC).sources.all
      (fun s => decide (s.priority ≤ c1_cpu.regs.ipl))) = true ∧
    (RXCpu.step c1_cpu).1.regs.sp = 0xE8 ∧
    (RXCpu.step c1_cpu).1.regs.pc = 0x181 ∧
    ((RXCpu.step c1_cpu).1.ic.getD emptyIC).nest_stack = [28] := by
  decide

/-- C2: the claim says interrupt entry loads the IPL field with the
accepted priority p.  In c2_cpu the accepted source has vector 28 and
priority 3; entry does push PSW then PC (SP falls from 0xF0 to 0xE8
with the old PSW at 0xEC and the old PC 0x100 at 0xE8), clears PSW.I,
jumps through the vector table and clears the pending flag, but the IPL
field becomes 28 & 0xF = 12, not the priority 3: _handle_interrupt
executes self.regs.ipl = vector. -/
theorem c2_interrupt_entry_loads_ipl_with_vector :
    (RXCpu.step c2_cpu).1.regs.ipl = 12 ∧
    (RXCpu.step c2_cpu).1.regs.sp = 0xE8 ∧
    (RXCpu.step c2_cpu).1.mem.read32 0xEC = 0x00010000 ∧
    (RXCpu.step c2_cpu).1.mem.read32 0xE8 = 0x100 ∧
    (RXCpu.step c2_cpu).1.regs.get_flag PSWFlags.I = false ∧
    ((RXCpu.step c2_cpu).1.ic.getD emptyIC).sources.all (fun s => !s.pending) = true ∧
    (RXCpu.step c2_cpu).1.regs.pc = 0x181 := by
  decide

/-- C3: the claim says a step taken in the WAITING state fetches and
consumes no instruction bytes.  RXCpu.step has no check of the WAITING
state: from c3_cpu (state WAITING, NOP at PC 0x100, nothing pending) a
step fetches the byte at PC, advances PC to 0x101 and the cycle counter
to 1, and executes the instruction, while the state stays WAITING (and
nothing but the absent interrupt path could restore RUNNING). -/
theorem c3_step_fetches_while_waiting :
    c3_cpu.state = CPUState.WAITING ∧
    (RXCpu.step c3_cpu).1.regs.pc = 0x101 ∧
    (RXCpu.step c3_cpu).1.cycle_count = 1 ∧
    (RXCpu.step c3_cpu).1.instruction_count = 1 ∧
    (RXCpu.step c3_cpu).1.state = CPUState.WAITING := by
  decide

/-- C4: the claim says the carry flag after ADD equals the unsigned
overflow, so adding R2 = 1 into R1 = 0xFFFFFFFF (sum 2^32) must set C.
The code masks the result before the flag update and then tests
result > 0xFFFFFFFF, which is always false: after the step R1 wrapped
to 0 yet C is clear (Z is set, witnessing the flag update ran). -/
theorem c4_add_carry_never_set :
    c4_cpu.regs.getR 1 = 0xFFFFFFFF ∧
    c4_cpu.regs.getR 2 = 1 ∧
    (RXCpu.step c4_cpu).1.regs.getR 1 = 0 ∧
    (RXCpu.step c4_cpu).1.regs.get_flag PSWFlags.C = false ∧
    (RXCpu.step c4_cpu).1.regs.get_flag PSWFlags.Z = true := by
  decide

/-- C5: the claim says first opcode byte 0xEF performs the
register-to-register move Rd <- Rs with no data-memory access.  The
instruction-table loop for 0xEC..0xEF overwrites the earlier 0xEF
binding with the memory-load handler, so in c5_cpu (bytes 0xEF 0x12,
R1 = 0x40, mem32(0x40) = 0xAABBCCDD) the step leaves R2 = 0xAABBCCDD,
the word loaded from memory at address R1, not R2 = R1 = 0x40. -/
theorem c5_opcode_ef_loads_from_memory :
    instruction_table 0xEF = some OpHandler.mov_l_load ∧
    (RXCpu.step c5_cpu).1.regs.getR 2 = 0xAABBCCDD ∧
    (RXCpu.step c5_cpu).1.regs.getR 1 = 0x40 ∧
    (RXCpu.step c5_cpu).1.regs.pc = 0x102 := by
  decide

/-- C6: writing then reading a byte-aligned address through the memory
controller returns the written value for all three widths, whenever no
peripheral handler covers the touched bytes, they all resolve to the
same writable block, the offsets are inside that block's buffer, and
the range stays below 2^32.  The value comes back reduced to the
width's range, which is the identity for in-range values. -/
theorem c6_memory_write_read_roundtrip (m : MemoryController) (a v : Nat) (b : MemoryBlock)
    (hb : a + 3 < 4294967296)
    (hh : ∀ i, i < 4 → m.handlers (a + i) = false)
    (hf : ∀ i, i < 4 → findBlock m.blocks (a + i) = some b)
    (hro : b.readonly = false)
    (hoff : ∀ i, i < 4 → a + i - b.start < b.data.length) :
    (m.write8 a v).read8 a = v % 256 ∧
    (m.write16 a v).read16 a = v % 65536 ∧
    (m.write32 a v).read32 a = v % 4294967296 := by
  refine ⟨?_, ?_, ?_⟩
  · exact roundtrip8 m a v b (by omega)
      (by simpa using hh 0 (by norm_num))
      (by simpa using hf 0 (by norm_num)) hro
      (by simpa using hoff 0 (by norm_num))
  · exact roundtrip16 m a v b (by omega)
      (fun i hi => hh i (by omega)) (fun i hi => hf i (by omega)) hro
      (fun i hi => hoff i (by omega))
  · exact roundtrip32 m a v b hb hh hf hro hoff

/-- Witness for C6 at the concrete controller c6_mem, address 4 and
value 0xABCD1234. -/
theorem c6_memory_write_read_roundtrip_witness :
    (c6_mem.write8 4 0xABCD1234).read8 4 = 0xABCD1234 % 256 ∧
    (c6_mem.write16 4 0xABCD1234).read16 4 = 0xABCD1234 % 65536 ∧
    (c6_mem.write32 4 0xABCD1234).read32 4 = 0xABCD1234 % 4294967296 :=
  c6_memory_write_read_roundtrip c6_mem 4 0xABCD1234 c6_block
    (by norm_num) (by decide) (by decide) (by decide) (by decide)

/-- Counterexample for C7 as stated: the running channel of c7_timer has
CMCOR = 0 and CMCNT = 0; ticking 8 cycles (divider 8) performs exactly
one increment, after which CMCNT is 1, the compare-match flag is still
clear and no interrupt was requested (the controller is unchanged),
refuting that every increment with CMCOR = 0 produces a compare match. -/
theorem c7_cmcor_zero_increment_no_match :
    (TimerController.tick c7_timer 8 c7_ic).1.cmt_units =
      [{ unit_number := 0, base_address := 0x00088000, cmstr := 1,
         channels := [{ c7_channel with cmcnt := 1 },
                      { number := 1, interrupt_vector := 29 }] },
       CMTUnit.init 1 0x00088010] ∧
    (TimerController.tick c7_timer 8 c7_ic).2 = c7_ic := by
  decide

/-- Witness for the amended C7 at the wrap point: the channel
c7w_channel (CMCNT = 0xFFFF, CMCOR = 0, divider 8) matches on the next
increment, clearing CMCNT, setting the flag and requesting vector 28. -/
theorem c7_cmcor_zero_match_only_on_wrap_witness :
    c7w_channel.running = true ∧ c7w_channel.cmcor = 0 ∧ c7w_channel.cmcnt < 65536 ∧
    tickChannel c7w_channel 0 c7w_channel.divider_value c7_ic =
      if c7w_channel.cmcnt = 65535 then
        ({ c7w_channel with cmcnt := 0, compare_match_flag := true },
         (if c7w_channel.interrupt_enabled then c7_ic.request c7w_channel.interrupt_vector
          else c7_ic), 0)
      else ({ c7w_channel with cmcnt := c7w_channel.cmcnt + 1 }, c7_ic, 0) :=
  ⟨by decide, by decide, by decide,
   c7_cmcor_zero_match_only_on_wrap c7w_channel c7_ic (by decide) (by decide) (by decide)⟩

/-- C8: the claim says each emulator step advances the timer by exactly
the cycles consumed by that step's instruction.  The code calls
clock.tick(self.cpu.cycle_count) with the CUMULATIVE cycle counter:
running two one-byte NOPs from c8_emu, the first step passes 1 and the
second passes 2 (its own cost is only 1), so the clock's tick counter
accumulates 3 while the CPU consumed 2 cycles in total; the second
tick argument exceeds the cycles of the second step. -/
theorem c8_step_ticks_timer_with_cumulative_cycles :
    (RX65NEmulator.step c8_emu).1.clock_tick_count = 1 ∧
    (RX65NEmulator.step c8_emu).1.cpu.cycle_count = 1 ∧
    (RX65NEmulator.step (RX65NEmulator.step c8_emu).1).1.clock_tick_count = 3 ∧
    (RX65NEmulator.step (RX65NEmulator.step c8_emu).1).1.cpu.cycle_count = 2 := by
  decide

/-- Counterexample for C9 as stated: resetting the concrete emulator
c9_emu leaves SP at the hard-coded default 0x00020000 of RXCpu.reset,
not at the claimed 0x0003FFFC, while PC is indeed loaded from the reset
vector 0xFFFFFFFC (here 0xFFE00000). -/
theorem c9_reset_sp_not_0003FFFC :
    (RX65NEmulator.reset c9_emu).cpu.regs.sp = 0x00020000 ∧
    (RX65NEmulator.reset c9_emu).cpu.regs.sp ≠ 0x0003FFFC ∧
    (RX65NEmulator.reset c9_emu).cpu.regs.pc = 0xFFE00000 := by
  decide

/-- C9 (amended): after the emulator reset sequence, PC holds the
32-bit word at the reset vector 0xFFFFFFFC read from the RAM-cleared
memory, SP holds the default 0x00020000, PSW is exactly the I bit, the
other fifteen general registers are zero, and the CPU is STOPPED with
cleared counters. -/
theorem c9_reset_state (e : RX65NEmulator) :
    (RX65NEmulator.reset e).cpu.regs.pc = (e.cpu.mem.reset).read32 0xFFFFFFFC ∧
    (RX65NEmulator.reset e).cpu.regs.r = (List.replicate 16 0).set 0 0x00020000 ∧
    (RX65NEmulator.reset e).cpu.regs.psw = PSWFlags.I ∧
    (RX65NEmulator.reset e).cpu.state = CPUState.STOPPED ∧
    (RX65NEmulator.reset e).cpu.cycle_count = 0 ∧
    (RX65NEmulator.reset e).cpu.instruction_count = 0 := by
  refine ⟨rfl, ?_, rfl, rfl, rfl, rfl⟩
  show (CPURegisters.setSp _ 0x00020000).r = _
  unfold CPURegisters.setSp CPURegisters.setR CPURegisters.init
  have h : (0x00020000 : Nat) &&& 0xFFFFFFFF = 0x00020000 := by decide
  rw [h]

/-- C10: MemoryController.reset preserves the peripheral handler table
and the abstract handler read view, keeps the block list's length, maps
every non-RAM block to itself, and replaces every RAM block's buffer by
a zeroed buffer of its declared size. -/
theorem c10_reset_clears_only_ram (m : MemoryController) :
    (m.reset).handlers = m.handlers ∧
    (m.reset).hread = m.hread ∧
    (m.reset).blocks.length = m.blocks.length ∧
    (∀ i : Nat, ∀ b : MemoryBlock, m.blocks[i]? = some b →
      b.region_type ≠ MemoryRegion.RAM → (m.reset).blocks[i]? = some b) ∧
    (∀ i : Nat, ∀ b : MemoryBlock, m.blocks[i]? = some b →
      b.region_type = MemoryRegion.RAM →
      (m.reset).blocks[i]? = some { b with data := List.replicate b.size 0 }) := by
  unfold MemoryController.reset
  refine ⟨rfl, rfl, by simp, ?_, ?_⟩
  · intro i b hib hnr
    simp [List.getElem?_map, hib, hnr]
  · intro i b hib hr
    simp [List.getElem?_map, hib, hr]

/-- Witness for C10 at the concrete controller c10_mem: the flash block
at index 1 survives reset unchanged while the RAM block at index 0 is
zeroed, and the handler table is untouched. -/
theorem c10_reset_clears_only_ram_witness :
    (c10_mem.reset).blocks[1]? =
      some { name := "Flash", start := 0x100, size := 4,
             region_type := MemoryRegion.FLASH, data := [5, 6, 7, 8], readonly := false } ∧
    (c10_mem.reset).blocks[0]? =
      some { name := "RAM", start := 0, size := 4,
             region_type := MemoryRegion.RAM, data := [0, 0, 0, 0], readonly := false } ∧
    (c10_mem.reset).handlers = c10_mem.handlers :=
  ⟨(c10_reset_clears_only_ram c10_mem).2.2.2.1 1 _ (by rfl) (by decide),
   by
    have h := (c10_reset_clears_only_ram c10_mem).2.2.2.2 0 _ (by rfl) (by decide)
    simpa using h,
   (c10_reset_clears_only_ram c10_mem).1⟩
